import Mathlib

/-!
Shallow embedding of the three Stylus smart contracts of the repository:

* `ScoreCalculator`   — src/smart contract/Calculadora_de_score .rs
* `BankRegistry`      — src/smart contract/Registro_de_bancos.rs
* `LoanComplianceLedger` — src/smart contract/Registro_de_usuario.rs

Modelling conventions:

* `Address` is `Nat`; `U256` values are `Nat` with an explicit `% 2 ^ 256`
  wherever the source's U256 arithmetic can overflow (release-mode U256
  arithmetic wraps).  Loop counters that are bounded by a list length
  (the compliance counters) cannot overflow on any realisable state and
  are plain `Nat`.
* `Bytes` values compared against string literals are `String`.
* Storage maps are total functions with the solidity default (empty list /
  `false`) built in.
* A state-mutating external method is a function returning
  `State × Except String Unit`: the first component is the persisted state
  after the call, the second the ABI result.  Error strings are the byte
  strings of the source.  Early returns in the source perform no storage
  write, which the translation reflects by returning the input state.
* In `mark_loan_as_paid` the out-of-bounds branch of the source reads
  `Err(b"LOAN_INDEX_OUT_OF_BOUNDS".to_RECT_vec())`; `to_RECT_vec` is not a
  method of `&[u8]` (the file does not compile as written).  It is
  translated as the evidently intended `to_vec()`.
* `StorageOwner.guard` is SDK-side code not present in the repository;
  `owner_guard` below is modelled from the spec.
-/

/-- Addresses, modelled as natural numbers. -/
abbrev Address : Type := Nat

/-- The U256 modulus `2 ^ 256`. -/
def U256MOD : Nat := 2 ^ 256

/-- `FIVE_YEARS_IN_SECONDS = U256::from_limbs([157_680_000, 0, 0, 0])`. -/
def FIVE_YEARS_IN_SECONDS : Nat := 157680000

/-! ## ScoreCalculator (Calculadora_de_score .rs) -/

/-- The `Attestation` struct (shared with the `UserAttestations` contract). -/
structure Attestation where
  bank_address : Address
  timestamp : Nat
  data_type : String
  value : Nat
  deriving DecidableEq, Repr

/-- Storage of the `ScoreCalculator` contract. -/
structure ScoreCalculator where
  attestations_contract : Address
  deriving DecidableEq, Repr

/-- One iteration of the `for att in attestations.iter()` loop of
`calculate_score`: the per-category rule table.  U256 addition wraps
modulo `2 ^ 256`; the `NIVEL_DEUDA` branch tests `score_bruto >= att.value`
before subtracting, otherwise sets the score to zero. -/
def scoreStep (score_bruto : Nat) (att : Attestation) : Nat :=
  if att.data_type = "INGRESO_ALTO" then
    (score_bruto + att.value) % U256MOD
  else if att.data_type = "NIVEL_DEUDA" then
    if att.value ≤ score_bruto then score_bruto - att.value else 0
  else if att.data_type = "TASA_AHORRO_ALTA" then
    (score_bruto + att.value) % U256MOD
  else
    score_bruto

/-- `calculate_score`, given the attestation list returned by the
`IAttestations::get_attestations` call for the user.  The raw score is the
left fold of `scoreStep` starting at `0`; if `ppa_factor == 0` the result is
`0`, otherwise `(score_bruto * 100) / ppa_factor` with the U256
multiplication wrapping modulo `2 ^ 256`. -/
def calculate_score (attestations : List Attestation) (ppa_factor : Nat) : Nat :=
  let score_bruto := attestations.foldl scoreStep 0
  if ppa_factor = 0 then 0
  else score_bruto * 100 % U256MOD / ppa_factor

/-- The rule table in the spec's words: plain (unbounded) addition and
saturating subtraction, no modulus. -/
def scoreStepSpec (raw : Nat) (att : Attestation) : Nat :=
  if att.data_type = "INGRESO_ALTO" then raw + att.value
  else if att.data_type = "NIVEL_DEUDA" then
    if att.value ≤ raw then raw - att.value else 0
  else if att.data_type = "TASA_AHORRO_ALTA" then raw + att.value
  else raw

/-- The score formula in the spec's words (for comparison with the code's
`calculate_score`): the fold over `scoreStepSpec` and a final
`floor(raw * 100 / adjustmentFactor)` with no overflow. -/
def calculate_score_spec (attestations : List Attestation) (ppa_factor : Nat) : Nat :=
  let raw := attestations.foldl scoreStepSpec 0
  if ppa_factor = 0 then 0 else raw * 100 / ppa_factor

/-- The value an attestation can add to the raw score (its `value` for the
additive categories `INGRESO_ALTO` and `TASA_AHORRO_ALTA`, else `0`). -/
def addedVal (att : Attestation) : Nat :=
  if att.data_type = "INGRESO_ALTO" ∨ att.data_type = "TASA_AHORRO_ALTA"
  then att.value else 0

/-- The sum of the attestation values that the rule table adds to the raw
score; the raw score is bounded by this sum, which bounds every
intermediate U256 quantity. -/
def addedSum (attestations : List Attestation) : Nat :=
  (attestations.map addedVal).sum

/-- `set_attestations_address`: no authorization check is performed; the
stored address is unconditionally replaced and the call succeeds.  The
`caller` argument is `msg::sender()`, which the method never reads. -/
def set_attestations_address (_caller : Address) (s : ScoreCalculator)
    (new_address : Address) : ScoreCalculator × Except String Unit :=
  ({ s with attestations_contract := new_address }, .ok ())

/-- `calculate_score` as an external view method: it fetches the
attestation list from the contract currently stored in
`attestations_contract` (the environment `env` gives, per attestations
contract address and user address, the list that `get_attestations`
returns) and computes the score from it. -/
def calculate_score_full (env : Address → Address → List Attestation)
    (s : ScoreCalculator) (user_address : Address) (ppa_factor : Nat) : Nat :=
  calculate_score (env s.attestations_contract user_address) ppa_factor

/-! ## BankRegistry (Registro_de_bancos.rs) -/

/-- Storage of the `BankRegistry` contract: the owner and the
`trusted_banks` map (default `false`). -/
structure BankRegistry where
  owner : Address
  trusted_banks : Address → Bool

/-- Modelled from the spec: `StorageOwner::guard` (SDK code, not in the
repository) succeeds exactly when the caller is the stored owner and
otherwise fails with `Unauthorized`. -/
def owner_guard (s : BankRegistry) (caller : Address) : Except String Unit :=
  if caller = s.owner then .ok () else .error "UNAUTHORIZED"

/-- `add_bank`: owner-only; inserts `true` for the bank address. -/
def add_bank (s : BankRegistry) (caller bank_address : Address) :
    BankRegistry × Except String Unit :=
  match owner_guard s caller with
  | .error e => (s, .error e)
  | .ok _ =>
    ({ s with trusted_banks := fun a =>
        if a = bank_address then true else s.trusted_banks a }, .ok ())

/-- `remove_bank`: owner-only; inserts `false` for the bank address. -/
def remove_bank (s : BankRegistry) (caller bank_address : Address) :
    BankRegistry × Except String Unit :=
  match owner_guard s caller with
  | .error e => (s, .error e)
  | .ok _ =>
    ({ s with trusted_banks := fun a =>
        if a = bank_address then false else s.trusted_banks a }, .ok ())

/-- `is_trusted_bank`: pure lookup in the map, default `false`; the method
always returns `Ok`. -/
def is_trusted_bank (s : BankRegistry) (bank_address : Address) : Bool :=
  s.trusted_banks bank_address

/-- `transfer_ownership`: owner-only; replaces the owner. -/
def transfer_ownership (s : BankRegistry) (caller new_owner : Address) :
    BankRegistry × Except String Unit :=
  match owner_guard s caller with
  | .error e => (s, .error e)
  | .ok _ => ({ s with owner := new_owner }, .ok ())

/-- A freshly deployed registry: no bank was ever set, so the map is
everywhere the default `false`. -/
def initRegistry (owner : Address) : BankRegistry :=
  { owner := owner, trusted_banks := fun _ => false }

/-! ## LoanComplianceLedger (Registro_de_usuario.rs) -/

/-- The `LoanRecord` struct. -/
structure LoanRecord where
  provider : Address
  timestamp_issued : Nat
  loan_amount : Nat
  is_paid : Bool
  timestamp_paid : Nat
  deriving DecidableEq, Repr

/-- Storage of the `LoanComplianceLedger` contract: the
`user_loans : StorageMap<Address, Vec<LoanRecord>>` map, default empty. -/
structure LoanComplianceLedger where
  user_loans : Address → List LoanRecord

/-- `add_loan_record`: pushes a fresh unpaid record (provider =
`msg::sender()`, issued at `block::timestamp()`) onto the user's list and
stores the list back; always succeeds. -/
def add_loan_record (s : LoanComplianceLedger) (sender now : Nat)
    (user_address : Address) (loan_amount : Nat) :
    LoanComplianceLedger × Except String Unit :=
  let new_loan : LoanRecord :=
    { provider := sender, timestamp_issued := now, loan_amount := loan_amount,
      is_paid := false, timestamp_paid := 0 }
  ({ user_loans := fun a =>
      if a = user_address then s.user_loans user_address ++ [new_loan]
      else s.user_loans a }, .ok ())

/-- `mark_loan_as_paid`: guarded update of one record of the user's list.
`sender` is `msg::sender()`, `now` is `block::timestamp()`.  The source's
out-of-bounds arm is translated as returning
`b"LOAN_INDEX_OUT_OF_BOUNDS".to_vec()` (see the header note on
`to_RECT_vec`). -/
def mark_loan_as_paid (s : LoanComplianceLedger) (sender now : Nat)
    (user_address : Address) (loan_index : Nat) :
    LoanComplianceLedger × Except String Unit :=
  let loan_list := s.user_loans user_address
  match loan_list[loan_index]? with
  | some loan =>
    if loan.provider ≠ sender then
      (s, .error "NOT_ORIGINAL_PROVIDER")
    else if loan.is_paid then
      (s, .error "LOAN_ALREADY_PAID")
    else
      ({ user_loans := fun a =>
          if a = user_address then
            loan_list.set loan_index
              { loan with is_paid := true, timestamp_paid := now }
          else s.user_loans a }, .ok ())
  | none => (s, .error "LOAN_INDEX_OUT_OF_BOUNDS")

/-- `get_loan_history`: returns the user's list; always `Ok`. -/
def get_loan_history (s : LoanComplianceLedger) (user_address : Address) :
    List LoanRecord :=
  s.user_loans user_address

/-- `get_compliance_percentage`: counts, over the user's list, the records
issued in the saturating five-year window and among those the paid ones;
returns `100` when the window is empty and otherwise
`paid * 100 / total` (multiplication first). -/
def get_compliance_percentage (s : LoanComplianceLedger) (now : Nat)
    (user_address : Address) : Nat :=
  let five_years_ago := now - FIVE_YEARS_IN_SECONDS
  let loan_list := s.user_loans user_address
  let total_loans_in_period :=
    loan_list.countP (fun loan => five_years_ago ≤ loan.timestamp_issued)
  let paid_loans_in_period :=
    loan_list.countP (fun loan =>
      five_years_ago ≤ loan.timestamp_issued && loan.is_paid)
  if total_loans_in_period = 0 then 100
  else paid_loans_in_period * 100 / total_loans_in_period

/-- One external call to the ledger, for reasoning about reachable
states: either `add_loan_record` or `mark_loan_as_paid`, with the
transaction environment (`msg::sender()`, `block::timestamp()`) and the
arguments. -/
inductive LedgerOp where
  | addLoan (sender now : Nat) (user_address : Address) (loan_amount : Nat)
  | markPaid (sender now : Nat) (user_address : Address) (loan_index : Nat)
  deriving DecidableEq, Repr

/-- The persisted state after one ledger call (an erroring call reverts,
leaving the state it returned — which is the input state). -/
def LedgerOp.apply (s : LoanComplianceLedger) : LedgerOp → LoanComplianceLedger
  | .addLoan sender now user amount => (add_loan_record s sender now user amount).1
  | .markPaid sender now user idx => (mark_loan_as_paid s sender now user idx).1

/-- The state after a sequence of ledger calls. -/
def runOps (s : LoanComplianceLedger) (ops : List LedgerOp) : LoanComplianceLedger :=
  ops.foldl LedgerOp.apply s

/-- The compliance percentage in the spec's words (for comparison with the
code's `get_compliance_percentage`): `window_start = max(0, now - FIVE_YEARS)`
by saturating subtraction, `total` the records with
`issued_at >= window_start`, `paid_count` those of them with `paid == true`,
result `100` on an empty window and `floor(paid_count * 100 / total)`
otherwise. -/
def compliance_spec (records : List LoanRecord) (now : Nat) : Nat :=
  let window_start :=
    if now < FIVE_YEARS_IN_SECONDS then 0 else now - FIVE_YEARS_IN_SECONDS
  let inWindow :=
    records.filter (fun loan => window_start ≤ loan.timestamp_issued)
  if inWindow.length = 0 then 100
  else (inWindow.filter (fun loan => loan.is_paid)).length * 100 / inWindow.length

/-! ## Concrete states used as test inputs -/

/-- An unpaid loan record of provider `7`. -/
def loanUnpaid : LoanRecord :=
  { provider := 7, timestamp_issued := 10, loan_amount := 500,
    is_paid := false, timestamp_paid := 0 }

/-- A paid loan record of provider `7`. -/
def loanPaid : LoanRecord :=
  { provider := 7, timestamp_issued := 10, loan_amount := 500,
    is_paid := true, timestamp_paid := 99 }

/-- A ledger with no loans at all. -/
def emptyLedger : LoanComplianceLedger := ⟨fun _ => []⟩

/-- A ledger in which every user has the list `[loanUnpaid, loanPaid]`. -/
def ledgerTwo : LoanComplianceLedger := ⟨fun _ => [loanUnpaid, loanPaid]⟩

/-- A ledger with three recent loans per user, two of them paid. -/
def ledgerCompliance : LoanComplianceLedger :=
  ⟨fun _ =>
    [{ provider := 1, timestamp_issued := 200000000, loan_amount := 1000,
       is_paid := true, timestamp_paid := 200000001 },
     { provider := 1, timestamp_issued := 200000000, loan_amount := 1000,
       is_paid := true, timestamp_paid := 200000002 },
     { provider := 1, timestamp_issued := 200000000, loan_amount := 1000,
       is_paid := false, timestamp_paid := 0 }]⟩

/-- A ledger with a single, unpaid loan issued at time `0` per user. -/
def ledgerOldLoan : LoanComplianceLedger :=
  ⟨fun _ =>
    [{ provider := 1, timestamp_issued := 0, loan_amount := 1000,
       is_paid := false, timestamp_paid := 0 }]⟩

/-- An attestation of the given category and value from bank `0`. -/
def mkAtt (category : String) (value : Nat) : Attestation :=
  { bank_address := 0, timestamp := 0, data_type := category, value := value }

/-! ## Theorems -/

/-- C1: `get_compliancePercentage(user)` considers exactly the loan records
with `issued_at >= window_start`, where `window_start` is `now` minus
`FIVE_YEARS_IN_SECONDS` (157 680 000) by saturating subtraction; on an
empty window it returns 100, otherwise `floor(paid_count * 100 / total)`
multiplying before dividing; 2 paid of 3 in-window loans gives 66, and a
loan issued `FIVE_YEARS_IN_SECONDS + 1` seconds before `now` is excluded
(lone such loan: result 100, the empty-window default). -/
theorem get_compliance_percentage_spec :
    (∀ (s : LoanComplianceLedger) (now : Nat) (user : Address),
      get_compliance_percentage s now user = compliance_spec (s.user_loans user) now) ∧
    get_compliance_percentage ledgerCompliance 200000005 0 = 66 ∧
    get_compliance_percentage ledgerOldLoan (FIVE_YEARS_IN_SECONDS + 1) 0 = 100 := by
  refine ⟨?_, by decide, by decide⟩
  intro s now user
  have hws : (if now < FIVE_YEARS_IN_SECONDS then 0
      else now - FIVE_YEARS_IN_SECONDS) = now - FIVE_YEARS_IN_SECONDS := by
    split <;> omega
  have hcomm : ∀ (l : List LoanRecord) (ws : Nat),
      l.filter (fun a => a.is_paid && decide (ws ≤ a.timestamp_issued)) =
        l.filter (fun a => decide (ws ≤ a.timestamp_issued) && a.is_paid) := by
    intro l ws
    apply List.filter_congr
    intro a _
    exact Bool.and_comm _ _
  simp only [get_compliance_percentage, compliance_spec, hws,
    List.countP_eq_length_filter, List.filter_filter, hcomm]

/-- C6: the `NIVEL_DEUDA` branch of the rule table is saturating
subtraction: with any current raw score and any attestation value, the
branch yields `0` when the value exceeds the raw score and `raw - value`
otherwise; in particular value 50 at raw score 20 yields 0. -/
theorem nivel_deuda_saturates :
    (∀ (bank : Address) (ts raw v : Nat),
      (raw < v → scoreStep raw ⟨bank, ts, "NIVEL_DEUDA", v⟩ = 0) ∧
      (v ≤ raw → scoreStep raw ⟨bank, ts, "NIVEL_DEUDA", v⟩ = raw - v)) ∧
    scoreStep 20 (mkAtt "NIVEL_DEUDA" 50) = 0 := by
  refine ⟨?_, by decide⟩
  intro bank ts raw v
  constructor <;> intro h <;> simp [scoreStep] <;> omega

/-- Witness for `nivel_deuda_saturates` at raw score 20, value 50. -/
theorem nivel_deuda_saturates_witness :
    (20 : Nat) < 50 ∧ scoreStep 20 ⟨0, 0, "NIVEL_DEUDA", 50⟩ = 0 :=
  ⟨by decide, (nivel_deuda_saturates.1 0 0 20 50).1 (by decide)⟩

/-- C9: `set_attestations_address` performs no authorization check: any
caller may set any new address, the call succeeds, the stored address
becomes the new one, and every subsequent `calculate_score` consults the
attestation list of the new address. -/
theorem set_attestations_address_unguarded :
    ∀ (caller : Address) (s : ScoreCalculator) (new_address : Address)
      (env : Address → Address → List Attestation) (user : Address) (ppa : Nat),
      set_attestations_address caller s new_address =
        ({ attestations_contract := new_address }, .ok ()) ∧
      calculate_score_full env (set_attestations_address caller s new_address).1 user ppa =
        calculate_score (env new_address user) ppa := by
  intro caller s new_address env user ppa
  exact ⟨rfl, rfl⟩

/-- C3: `mark_loan_as_paid` (with the source's `to_RECT_vec` typo read as
the intended `to_vec`) returns `LOAN_INDEX_OUT_OF_BOUNDS` exactly when the
index is not a valid position, `NOT_ORIGINAL_PROVIDER` when the record
exists but its provider is not the caller, `LOAN_ALREADY_PAID` when the
caller is the provider and the record is already paid, and otherwise
succeeds, setting `is_paid := true` and `timestamp_paid := now`. -/
theorem mark_loan_as_paid_cases :
    ∀ (s : LoanComplianceLedger) (sender now : Nat) (user : Address) (i : Nat),
      ((s.user_loans user).length ≤ i →
        mark_loan_as_paid s sender now user i =
          (s, .error "LOAN_INDEX_OUT_OF_BOUNDS")) ∧
      (∀ loan, (s.user_loans user)[i]? = some loan → loan.provider ≠ sender →
        mark_loan_as_paid s sender now user i =
          (s, .error "NOT_ORIGINAL_PROVIDER")) ∧
      (∀ loan, (s.user_loans user)[i]? = some loan → loan.provider = sender →
        loan.is_paid = true →
        mark_loan_as_paid s sender now user i = (s, .error "LOAN_ALREADY_PAID")) ∧
      (∀ loan, (s.user_loans user)[i]? = some loan → loan.provider = sender →
        loan.is_paid = false →
        mark_loan_as_paid s sender now user i =
          (⟨fun a => if a = user then
              (s.user_loans user).set i
                { loan with is_paid := true, timestamp_paid := now }
            else s.user_loans a⟩, .ok ())) := by
  intro s sender now user i
  refine ⟨?_, ?_, ?_, ?_⟩
  · intro h
    simp only [mark_loan_as_paid, List.getElem?_eq_none h]
  · intro loan hsome hne
    simp only [mark_loan_as_paid, hsome]
    simp [hne]
  · intro loan hsome hpe hpaid
    simp only [mark_loan_as_paid, hsome]
    simp [hpe, hpaid]
  · intro loan hsome hpe hpaid
    simp only [mark_loan_as_paid, hsome]
    simp [hpe, hpaid]

/-- Witness for `mark_loan_as_paid_cases`: all four branches at concrete
states. -/
theorem mark_loan_as_paid_cases_witness :
    mark_loan_as_paid emptyLedger 1 5 0 0 =
      (emptyLedger, .error "LOAN_INDEX_OUT_OF_BOUNDS") ∧
    mark_loan_as_paid ledgerTwo 8 5 0 0 =
      (ledgerTwo, .error "NOT_ORIGINAL_PROVIDER") ∧
    mark_loan_as_paid ledgerTwo 7 5 0 1 =
      (ledgerTwo, .error "LOAN_ALREADY_PAID") ∧
    mark_loan_as_paid ledgerTwo 7 77 0 0 =
      (⟨fun a => if a = 0 then
          (ledgerTwo.user_loans 0).set 0
            { loanUnpaid with is_paid := true, timestamp_paid := 77 }
        else ledgerTwo.user_loans a⟩, .ok ()) :=
  ⟨(mark_loan_as_paid_cases emptyLedger 1 5 0 0).1 (by decide),
   (mark_loan_as_paid_cases ledgerTwo 8 5 0 0).2.1 loanUnpaid (by decide) (by decide),
   (mark_loan_as_paid_cases ledgerTwo 7 5 0 1).2.2.1 loanPaid (by decide) rfl rfl,
   (mark_loan_as_paid_cases ledgerTwo 7 77 0 0).2.2.2 loanUnpaid (by decide) rfl rfl⟩

/-- C4: all-or-nothing semantics — whenever `add_bank`, `remove_bank`,
`transfer_ownership` or `mark_loan_as_paid` returns an error, the
persisted state after the call is the state before the call. -/
theorem error_reverts :
    (∀ (s : BankRegistry) (caller bank : Address) (e : String),
      (add_bank s caller bank).2 = .error e → (add_bank s caller bank).1 = s) ∧
    (∀ (s : BankRegistry) (caller bank : Address) (e : String),
      (remove_bank s caller bank).2 = .error e → (remove_bank s caller bank).1 = s) ∧
    (∀ (s : BankRegistry) (caller next : Address) (e : String),
      (transfer_ownership s caller next).2 = .error e →
        (transfer_ownership s caller next).1 = s) ∧
    (∀ (s : LoanComplianceLedger) (sender now : Nat) (user : Address) (i : Nat)
      (e : String),
      (mark_loan_as_paid s sender now user i).2 = .error e →
        (mark_loan_as_paid s sender now user i).1 = s) := by
  refine ⟨?_, ?_, ?_, ?_⟩
  · intro s caller bank e h
    by_cases hc : caller = s.owner
    · simp [add_bank, owner_guard, hc] at h
    · simp [add_bank, owner_guard, hc]
  · intro s caller bank e h
    by_cases hc : caller = s.owner
    · simp [remove_bank, owner_guard, hc] at h
    · simp [remove_bank, owner_guard, hc]
  · intro s caller next e h
    by_cases hc : caller = s.owner
    · simp [transfer_ownership, owner_guard, hc] at h
    · simp [transfer_ownership, owner_guard, hc]
  · intro s sender now user i e h
    rcases hms : (s.user_loans user)[i]? with _ | loan
    · simp [mark_loan_as_paid, hms]
    · by_cases hp : loan.provider = sender
      · by_cases hpd : loan.is_paid
        · simp [mark_loan_as_paid, hms, hp, hpd]
        · simp [mark_loan_as_paid, hms, hp, hpd] at h
      · simp [mark_loan_as_paid, hms, hp]

/-- Witness for `error_reverts`: one erroring call of each operation. -/
theorem error_reverts_witness :
    (add_bank (initRegistry 0) 1 2).1 = initRegistry 0 ∧
    (remove_bank (initRegistry 0) 1 2).1 = initRegistry 0 ∧
    (transfer_ownership (initRegistry 0) 1 2).1 = initRegistry 0 ∧
    (mark_loan_as_paid emptyLedger 1 5 0 0).1 = emptyLedger :=
  ⟨error_reverts.1 (initRegistry 0) 1 2 "UNAUTHORIZED" rfl,
   error_reverts.2.1 (initRegistry 0) 1 2 "UNAUTHORIZED" rfl,
   error_reverts.2.2.1 (initRegistry 0) 1 2 "UNAUTHORIZED" rfl,
   error_reverts.2.2.2 emptyLedger 1 5 0 0 "LOAN_INDEX_OUT_OF_BOUNDS" rfl⟩

/-- C10: frame of a successful `mark_loan_as_paid` — every other user's
list is untouched, the length (and hence order) of the user's list is
preserved, every other position of the user's list is untouched, and at
the marked position the record keeps its `provider`, `timestamp_issued`
and `loan_amount`, changing only `is_paid` (to `true`) and
`timestamp_paid` (to the current time). -/
theorem mark_loan_as_paid_frame :
    ∀ (s s2 : LoanComplianceLedger) (sender now : Nat) (user : Address) (i : Nat),
      mark_loan_as_paid s sender now user i = (s2, .ok ()) →
      (∀ a, a ≠ user → s2.user_loans a = s.user_loans a) ∧
      (s2.user_loans user).length = (s.user_loans user).length ∧
      (∀ j, j ≠ i → (s2.user_loans user)[j]? = (s.user_loans user)[j]?) ∧
      (∃ r, (s.user_loans user)[i]? = some r ∧ r.is_paid = false ∧
        r.provider = sender ∧
        (s2.user_loans user)[i]? =
          some { provider := r.provider, timestamp_issued := r.timestamp_issued,
                 loan_amount := r.loan_amount, is_paid := true,
                 timestamp_paid := now }) := by
  intro s s2 sender now user i h
  rcases hms : (s.user_loans user)[i]? with _ | loan
  · simp [mark_loan_as_paid, hms] at h
  · by_cases hp : loan.provider = sender
    · by_cases hpd : loan.is_paid
      · simp [mark_loan_as_paid, hms, hp, hpd] at h
      · have h2 : mark_loan_as_paid s sender now user i =
            (⟨fun a => if a = user then
                (s.user_loans user).set i
                  { loan with is_paid := true, timestamp_paid := now }
              else s.user_loans a⟩, .ok ()) := by
          simp only [mark_loan_as_paid, hms]
          rw [if_neg (by simp [hp]), if_neg (by simp [hpd])]
        rw [h2] at h
        have hs2 : s2 = ⟨fun a => if a = user then
            (s.user_loans user).set i
              { loan with is_paid := true, timestamp_paid := now }
          else s.user_loans a⟩ := (congrArg Prod.fst h).symm
        subst hs2
        have hlt : i < (s.user_loans user).length :=
          (List.getElem?_eq_some_iff.mp hms).1
        constructor
        · intro a ha
          simp [ha]
        constructor
        · simp
        constructor
        · intro j hj
          simp [List.getElem?_set_ne (Ne.symm hj)]
        exact ⟨loan, rfl, by simpa using hpd, hp,
          by simp [List.getElem?_set_self hlt]⟩
    · simp [mark_loan_as_paid, hms, hp] at h

/-- Witness for `mark_loan_as_paid_frame`: the successful call of provider
7 on index 0 of `ledgerTwo`. -/
theorem mark_loan_as_paid_frame_witness :
    ∃ r, (ledgerTwo.user_loans 0)[0]? = some r ∧ r.is_paid = false ∧
      r.provider = 7 ∧
      (((mark_loan_as_paid ledgerTwo 7 77 0 0).1).user_loans 0)[0]? =
        some { provider := r.provider, timestamp_issued := r.timestamp_issued,
               loan_amount := r.loan_amount, is_paid := true,
               timestamp_paid := 77 } :=
  (mark_loan_as_paid_frame ledgerTwo (mark_loan_as_paid ledgerTwo 7 77 0 0).1
    7 77 0 0 rfl).2.2.2

/-- Helper: a single ledger call never changes a record that is already
paid — `add_loan_record` only appends, and `mark_loan_as_paid` either
reverts or rewrites a record whose `is_paid` is `false`. -/
theorem LedgerOp.apply_preserves_paid (op : LedgerOp) (s : LoanComplianceLedger)
    (user : Address) (i : Nat) (r : LoanRecord)
    (hsome : (s.user_loans user)[i]? = some r) (hpaid : r.is_paid = true) :
    ((op.apply s).user_loans user)[i]? = some r := by
  cases op with
  | addLoan sender now u amount =>
    simp only [LedgerOp.apply, add_loan_record]
    by_cases hu : user = u
    · subst hu
      have hlt : i < (s.user_loans user).length :=
        (List.getElem?_eq_some_iff.mp hsome).1
      simp [List.getElem?_append_left hlt, hsome]
    · simp only [if_neg hu]
      exact hsome
  | markPaid sender now u j =>
    simp only [LedgerOp.apply]
    rcases hms : (s.user_loans u)[j]? with _ | loan
    · simp only [mark_loan_as_paid, hms]
      exact hsome
    · by_cases hp : loan.provider = sender
      · by_cases hpd : loan.is_paid
        · simp only [mark_loan_as_paid, hms]
          rw [if_neg (by simp [hp]), if_pos (by simp [hpd])]
          exact hsome
        · simp only [mark_loan_as_paid, hms]
          rw [if_neg (by simp [hp]), if_neg (by simp [hpd])]
          by_cases hu : user = u
          · subst hu
            by_cases hij : j = i
            · subst hij
              rw [hms] at hsome
              cases hsome
              rw [hpaid] at hpd
              exact absurd rfl hpd
            · simp [List.getElem?_set_ne hij, hsome]
          · simp only [if_neg hu]
            exact hsome
      · simp only [mark_loan_as_paid, hms]
        rw [if_pos (by simp [hp])]
        exact hsome

/-- Helper: `LedgerOp.apply_preserves_paid` extended to any sequence of
ledger calls. -/
theorem runOps_preserves_paid (ops : List LedgerOp) :
    ∀ (s : LoanComplianceLedger) (user : Address) (i : Nat) (r : LoanRecord),
      (s.user_loans user)[i]? = some r → r.is_paid = true →
      ((runOps s ops).user_loans user)[i]? = some r := by
  induction ops with
  | nil =>
    intro s user i r hsome _
    simpa [runOps] using hsome
  | cons op rest ih =>
    intro s user i r hsome hpaid
    simp only [runOps, List.foldl_cons]
    exact ih (op.apply s) user i r
      (LedgerOp.apply_preserves_paid op s user i r hsome hpaid) hpaid

/-- C5: `Paid` is terminal — in every state reachable by any sequence of
ledger operations from a state where a record is paid, that record is
still present, unchanged, at the same position; and a further
`mark_loan_as_paid` on it by its provider fails with `LOAN_ALREADY_PAID`. -/
theorem paid_is_terminal :
    (∀ (ops : List LedgerOp) (s : LoanComplianceLedger) (user : Address)
      (i : Nat) (r : LoanRecord),
      (s.user_loans user)[i]? = some r → r.is_paid = true →
      ((runOps s ops).user_loans user)[i]? = some r) ∧
    (∀ (s : LoanComplianceLedger) (sender now : Nat) (user : Address)
      (i : Nat) (r : LoanRecord),
      (s.user_loans user)[i]? = some r → r.is_paid = true →
      r.provider = sender →
      mark_loan_as_paid s sender now user i = (s, .error "LOAN_ALREADY_PAID")) := by
  constructor
  · intro ops s user i r hsome hpaid
    exact runOps_preserves_paid ops s user i r hsome hpaid
  · intro s sender now user i r hsome hpaid hprov
    simp only [mark_loan_as_paid, hsome]
    rw [if_neg (by simp [hprov]), if_pos (by simp [hpaid])]

/-- Witness for `paid_is_terminal`: the paid record at index 1 of
`ledgerTwo` survives an `add_loan_record` and a `mark_loan_as_paid` of the
other record, and marking it again fails with `LOAN_ALREADY_PAID`. -/
theorem paid_is_terminal_witness :
    ((runOps ledgerTwo
        [LedgerOp.addLoan 3 50 0 700, LedgerOp.markPaid 7 60 0 0]).user_loans 0)[1]? =
      some loanPaid ∧
    mark_loan_as_paid ledgerTwo 7 60 0 1 = (ledgerTwo, .error "LOAN_ALREADY_PAID") :=
  ⟨paid_is_terminal.1 [LedgerOp.addLoan 3 50 0 700, LedgerOp.markPaid 7 60 0 0]
      ledgerTwo 0 1 loanPaid (by decide) rfl,
   paid_is_terminal.2 ledgerTwo 7 60 0 1 loanPaid (by decide) rfl rfl⟩

/-- C7: on a fresh registry `is_trusted_bank` is `false` everywhere (and,
being a pure map lookup, never fails); `add_bank`/`remove_bank` touch no
address other than their target; they succeed exactly when the caller is
the owner, and on success the target's trust bit is exactly the value set;
a non-owner call returns `UNAUTHORIZED` and leaves the state unchanged. -/
theorem bank_registry_trust :
    (∀ (owner x : Address), is_trusted_bank (initRegistry owner) x = false) ∧
    (∀ (s : BankRegistry) (caller b a : Address), a ≠ b →
      (add_bank s caller b).1.trusted_banks a = s.trusted_banks a ∧
      (remove_bank s caller b).1.trusted_banks a = s.trusted_banks a) ∧
    (∀ (s : BankRegistry) (caller b : Address),
      ((add_bank s caller b).2 = .ok () ↔ caller = s.owner) ∧
      ((remove_bank s caller b).2 = .ok () ↔ caller = s.owner)) ∧
    (∀ (s : BankRegistry) (caller b : Address), caller = s.owner →
      is_trusted_bank (add_bank s caller b).1 b = true ∧
      is_trusted_bank (remove_bank s caller b).1 b = false) ∧
    (∀ (s : BankRegistry) (caller b : Address), caller ≠ s.owner →
      add_bank s caller b = (s, .error "UNAUTHORIZED") ∧
      remove_bank s caller b = (s, .error "UNAUTHORIZED")) := by
  refine ⟨?_, ?_, ?_, ?_, ?_⟩
  · intro owner x
    rfl
  · intro s caller b a ha
    by_cases hc : caller = s.owner <;>
      simp [add_bank, remove_bank, owner_guard, hc, ha]
  · intro s caller b
    by_cases hc : caller = s.owner <;>
      simp [add_bank, remove_bank, owner_guard, hc]
  · intro s caller b hc
    simp [add_bank, remove_bank, owner_guard, is_trusted_bank, hc]
  · intro s caller b hc
    simp [add_bank, remove_bank, owner_guard, hc]

/-- Witness for `bank_registry_trust` on a fresh registry owned by `0`:
frame at address 1, owner calls on address 2, a rejected call by 5. -/
theorem bank_registry_trust_witness :
    (add_bank (initRegistry 0) 0 2).1.trusted_banks 1 =
      (initRegistry 0).trusted_banks 1 ∧
    is_trusted_bank (add_bank (initRegistry 0) 0 2).1 2 = true ∧
    is_trusted_bank (remove_bank (initRegistry 0) 0 2).1 2 = false ∧
    add_bank (initRegistry 0) 5 2 = (initRegistry 0, .error "UNAUTHORIZED") :=
  ⟨(bank_registry_trust.2.1 (initRegistry 0) 0 2 1 (by decide)).1,
   (bank_registry_trust.2.2.2.1 (initRegistry 0) 0 2 rfl).1,
   (bank_registry_trust.2.2.2.1 (initRegistry 0) 0 2 rfl).2,
   (bank_registry_trust.2.2.2.2 (initRegistry 0) 5 2 (by decide)).1⟩

/-- C8: `setTrust` is idempotent — an owner's `add_bank` (resp.
`remove_bank`) repeated on the same address succeeds again and leaves the
state produced by the first call exactly as it was. -/
theorem set_trust_idempotent :
    ∀ (s : BankRegistry) (caller b : Address), caller = s.owner →
      add_bank (add_bank s caller b).1 caller b = ((add_bank s caller b).1, .ok ()) ∧
      remove_bank (remove_bank s caller b).1 caller b =
        ((remove_bank s caller b).1, .ok ()) := by
  intro s caller b hc
  have keyAdd : ∀ (t : BankRegistry), caller = t.owner →
      add_bank t caller b =
        ({ t with trusted_banks := fun a =>
            if a = b then true else t.trusted_banks a }, .ok ()) := by
    intro t ht
    simp [add_bank, owner_guard, ht]
  have keyRem : ∀ (t : BankRegistry), caller = t.owner →
      remove_bank t caller b =
        ({ t with trusted_banks := fun a =>
            if a = b then false else t.trusted_banks a }, .ok ()) := by
    intro t ht
    simp [remove_bank, owner_guard, ht]
  constructor
  · have step1 : add_bank (add_bank s caller b).1 caller b =
        add_bank { s with trusted_banks := fun a =>
          if a = b then true else s.trusted_banks a } caller b := by
      rw [keyAdd s hc]
    rw [step1, keyAdd { s with trusted_banks := fun a =>
      if a = b then true else s.trusted_banks a } hc, keyAdd s hc]
    have hfun : (fun a => if a = b then true else
        ({ s with trusted_banks := fun a2 =>
            if a2 = b then true else s.trusted_banks a2 } :
          BankRegistry).trusted_banks a) =
        (fun a => if a = b then true else s.trusted_banks a) := by
      funext a
      by_cases hab : a = b <;> simp [hab]
    exact congrArg
      (fun f => ((⟨s.owner, f⟩ : BankRegistry), (Except.ok () : Except String Unit)))
      hfun
  · have step1 : remove_bank (remove_bank s caller b).1 caller b =
        remove_bank { s with trusted_banks := fun a =>
          if a = b then false else s.trusted_banks a } caller b := by
      rw [keyRem s hc]
    rw [step1, keyRem { s with trusted_banks := fun a =>
      if a = b then false else s.trusted_banks a } hc, keyRem s hc]
    have hfun : (fun a => if a = b then false else
        ({ s with trusted_banks := fun a2 =>
            if a2 = b then false else s.trusted_banks a2 } :
          BankRegistry).trusted_banks a) =
        (fun a => if a = b then false else s.trusted_banks a) := by
      funext a
      by_cases hab : a = b <;> simp [hab]
    exact congrArg
      (fun f => ((⟨s.owner, f⟩ : BankRegistry), (Except.ok () : Except String Unit)))
      hfun

/-- Witness for `set_trust_idempotent`: owner `0` setting address 2 twice
on a fresh registry. -/
theorem set_trust_idempotent_witness :
    add_bank (add_bank (initRegistry 0) 0 2).1 0 2 =
      ((add_bank (initRegistry 0) 0 2).1, .ok ()) ∧
    remove_bank (remove_bank (initRegistry 0) 0 2).1 0 2 =
      ((remove_bank (initRegistry 0) 0 2).1, .ok ()) :=
  set_trust_idempotent (initRegistry 0) 0 2 rfl

/-- Helper: one step of the spec-side rule table grows the raw score by at
most the attestation's added value. -/
theorem scoreStepSpec_le (raw : Nat) (att : Attestation) :
    scoreStepSpec raw att ≤ raw + addedVal att := by
  unfold scoreStepSpec addedVal
  by_cases h1 : att.data_type = "INGRESO_ALTO"
  · simp [h1]
  · by_cases h2 : att.data_type = "NIVEL_DEUDA"
    · simp only [if_neg h1, if_pos h2]
      split <;> omega
    · by_cases h3 : att.data_type = "TASA_AHORRO_ALTA"
      · simp [h1, h2, h3]
      · simp [h1, h2, h3]

/-- Helper: the spec-side fold is bounded by the start value plus the sum
of the added values. -/
theorem foldl_scoreStepSpec_le (atts : List Attestation) :
    ∀ raw : Nat, atts.foldl scoreStepSpec raw ≤ raw + addedSum atts := by
  induction atts with
  | nil =>
    intro raw
    simp [addedSum]
  | cons att rest ih =>
    intro raw
    have hsum : addedSum (att :: rest) = addedVal att + addedSum rest := by
      simp [addedSum]
    rw [List.foldl_cons, hsum]
    have h1 := scoreStepSpec_le raw att
    have h2 := ih (scoreStepSpec raw att)
    omega

/-- Helper: one step of the code's rule table agrees with the spec's when
the result cannot reach the U256 modulus. -/
theorem scoreStep_eq_spec_of_lt (raw : Nat) (att : Attestation)
    (h : raw + addedVal att < U256MOD) :
    scoreStep raw att = scoreStepSpec raw att := by
  unfold scoreStep scoreStepSpec
  by_cases h1 : att.data_type = "INGRESO_ALTO"
  · have hv : addedVal att = att.value := by simp [addedVal, h1]
    rw [hv] at h
    simp only [if_pos h1]
    exact Nat.mod_eq_of_lt h
  · by_cases h2 : att.data_type = "NIVEL_DEUDA"
    · simp [h1, h2]
    · by_cases h3 : att.data_type = "TASA_AHORRO_ALTA"
      · have hv : addedVal att = att.value := by simp [addedVal, h3]
        rw [hv] at h
        simp only [if_neg h1, if_neg h2, if_pos h3]
        exact Nat.mod_eq_of_lt h
      · simp [h1, h2, h3]

/-- Helper: the code's fold agrees with the spec's fold whenever the start
value plus all added values stays below the U256 modulus. -/
theorem foldl_scoreStep_eq_spec (atts : List Attestation) :
    ∀ raw : Nat, raw + addedSum atts < U256MOD →
      atts.foldl scoreStep raw = atts.foldl scoreStepSpec raw := by
  induction atts with
  | nil =>
    intro raw _
    rfl
  | cons att rest ih =>
    intro raw h
    have hsum : addedSum (att :: rest) = addedVal att + addedSum rest := by
      simp [addedSum]
    rw [hsum] at h
    have hstep : scoreStep raw att = scoreStepSpec raw att :=
      scoreStep_eq_spec_of_lt raw att (by omega)
    have hle := scoreStepSpec_le raw att
    rw [List.foldl_cons, List.foldl_cons, hstep]
    exact ih (scoreStepSpec raw att) (by omega)

/-- Counterexample to C2 as stated: with a single `INGRESO_ALTO`
attestation of value `2 ^ 255` and `adjustmentFactor = 1`, the code's
`calculate_score` returns `0` (the U256 multiplication `raw * 100` wraps
modulo `2 ^ 256`), while the claimed formula `floor(raw * 100 / factor)`
gives `2 ^ 255 * 100`. -/
theorem calculate_score_wraps_cex :
    calculate_score [mkAtt "INGRESO_ALTO" (2 ^ 255)] 1 = 0 ∧
    calculate_score_spec [mkAtt "INGRESO_ALTO" (2 ^ 255)] 1 = 2 ^ 255 * 100 ∧
    (0 : Nat) ≠ 2 ^ 255 * 100 := by
  refine ⟨?_, ?_, by decide⟩
  · show (if (1 : Nat) = 0 then 0
      else (0 + 2 ^ 255) % U256MOD * 100 % U256MOD / 1) = 0
    norm_num [U256MOD]
  · show (if (1 : Nat) = 0 then 0 else (0 + 2 ^ 255) * 100 / 1) = 2 ^ 255 * 100
    norm_num

/-- C2 (amended): `calculate_score` folds the rule table in list order and
divides after multiplying, with the arithmetic performed in U256, i.e.
modulo `2 ^ 256`; whenever no intermediate value can wrap (the added
values times 100 stay below `2 ^ 256`) it equals the spec's exact formula
`floor(raw * 100 / adjustmentFactor)`, and `adjustmentFactor = 0` yields
`0`.  The claim's examples hold: one `INGRESO_ALTO` attestation of value
100 gives 100 at factor 100, 166 at factor 60 and 0 at factor 0. -/
theorem calculate_score_no_overflow :
    (∀ (atts : List Attestation) (ppa : Nat), addedSum atts * 100 < U256MOD →
      calculate_score atts ppa = calculate_score_spec atts ppa) ∧
    calculate_score [mkAtt "INGRESO_ALTO" 100] 100 = 100 ∧
    calculate_score [mkAtt "INGRESO_ALTO" 100] 60 = 166 ∧
    calculate_score [mkAtt "INGRESO_ALTO" 100] 0 = 0 := by
  refine ⟨?_, by decide, by decide, by decide⟩
  intro atts ppa h
  have h100 : addedSum atts ≤ addedSum atts * 100 := by
    have := Nat.mul_le_mul_left (addedSum atts) (show 1 ≤ 100 by norm_num)
    simpa using this
  have hfold : atts.foldl scoreStep 0 = atts.foldl scoreStepSpec 0 :=
    foldl_scoreStep_eq_spec atts 0 (by omega)
  have hraw : atts.foldl scoreStepSpec 0 ≤ addedSum atts := by
    have := foldl_scoreStepSpec_le atts 0
    omega
  unfold calculate_score calculate_score_spec
  rw [hfold]
  by_cases hp : ppa = 0
  · simp [hp]
  · simp only [if_neg hp]
    rw [Nat.mod_eq_of_lt (by
      have : atts.foldl scoreStepSpec 0 * 100 ≤ addedSum atts * 100 :=
        Nat.mul_le_mul_right 100 hraw
      omega)]

/-- Witness for `calculate_score_no_overflow`: the single `INGRESO_ALTO`
attestation of value 100 at factor 60 is far below the overflow bound. -/
theorem calculate_score_no_overflow_witness :
    addedSum [mkAtt "INGRESO_ALTO" 100] * 100 < U256MOD ∧
    calculate_score [mkAtt "INGRESO_ALTO" 100] 60 =
      calculate_score_spec [mkAtt "INGRESO_ALTO" 100] 60 :=
  ⟨by decide, calculate_score_no_overflow.1 [mkAtt "INGRESO_ALTO" 100] 60 (by decide)⟩
